import Mathlib

/-!
# MyStatement: the MySQL prepared-statement adapter

Shallow embedding of `extensions/mysql/mysql/MyStatement.cpp`.

* The C heap is a list of blocks; `malloc` appends a block, `free` marks it dead.
  A `fault` flag records an access C leaves undefined (double free, write to a
  dead block).
* The MySQL client library and the `MyBoundResults` collaborator are a scripted
  state `Native`: every result set the server will deliver carries the return
  value of each native call made on it.
* Memory handed in by the caller (`text`, `data`) is passed by value together
  with its address; it is disjoint from the blocks the adapter owns.
* Lengths (`size_t`, `unsigned long`) are natural numbers: the code does no
  arithmetic on them beyond `strlen(text) + 1`, and both types are taken to be
  of the same width, so the cast of a length changes nothing.
* The members of the class are taken to have no default initialisers: the
  primary constructor initialises each of them itself, and the copy constructor
  notes that a member it does not assign holds garbage.
-/

/-! ## Memory -/

/-- One byte of memory. -/
abbrev Byte := Nat

/-- A C pointer as far as the adapter distinguishes them. -/
inductive Ptr where
  /-- The null pointer. -/
  | null
  /-- Start of the heap block with this number. -/
  | heap (block : Nat)
  /-- Memory owned by the caller of a bind function. -/
  | caller (addr : Nat)
  /-- Address of `m_pushinfo[i].data.ival` inside the adapter object `obj`. -/
  | ival (obj i : Nat)
  /-- Address of `m_pushinfo[i].data.fval` inside the adapter object `obj`. -/
  | fval (obj i : Nat)
  /-- Address of `m_bind[i].buffer_length` inside the adapter object `obj`. -/
  | buffer_length (obj i : Nat)
  deriving DecidableEq, Repr

/-- The heap: block number to contents, `none` once freed. -/
structure Heap where
  blocks : List (Option (List Byte))
  fault : Bool
  deriving DecidableEq, Repr

/-- Contents of the live block a pointer designates. -/
def Heap.block (h : Heap) (p : Ptr) : Option (List Byte) :=
  match p with
  | .heap b => h.blocks.getD b none
  | _ => none

/-- The first `n` bytes at `p`, when `p` is a live block of at least `n` bytes. -/
def Heap.read (h : Heap) (p : Ptr) (n : Nat) : Option (List Byte) :=
  match h.block p with
  | some bs => if n ≤ bs.length then some (bs.take n) else none
  | none => none

/-- Allocation `malloc(n)`: a fresh block of `n` bytes (never null, never a
block number used before). -/
def malloc (n : Nat) (h : Heap) : Ptr × Heap :=
  (.heap h.blocks.length, { h with blocks := h.blocks ++ [some (List.replicate n 0)] })

/-- Release `free(p)`: a no-op on null, faults on anything but a live block. -/
def free (p : Ptr) (h : Heap) : Heap :=
  match p with
  | .null => h
  | .heap b =>
    match h.blocks.getD b none with
    | some _ => { h with blocks := h.blocks.set b none }
    | none => { h with fault := true }
  | _ => { h with fault := true }

/-- Copy `memcpy(dst, src, n)` where `src` are the `n` bytes read at the source
(`none` when the source cannot be read). -/
def memcpy (dst : Ptr) (src : Option (List Byte)) (h : Heap) : Heap :=
  match src, dst with
  | some data, .heap b =>
    match h.blocks.getD b none with
    | some old =>
      if data.length ≤ old.length then
        { h with blocks := h.blocks.set b (some (data ++ old.drop data.length)) }
      else { h with fault := true }
    | none => { h with fault := true }
  | _, _ => { h with fault := true }

/-- Caller-owned memory starting at `addr`; bytes past the listed ones read 0. -/
structure CallerMem where
  addr : Nat
  bytes : List Byte
  deriving DecidableEq, Repr

/-- Pointer to the caller memory. -/
def CallerMem.ptr (m : CallerMem) : Ptr := .caller m.addr

/-- The first `n` bytes of the caller memory. -/
def CallerMem.read (m : CallerMem) (n : Nat) : List Byte :=
  (List.range n).map (fun i => m.bytes.getD i 0)

/-- C `strlen`: number of bytes before the first zero byte. -/
def strlen (text : CallerMem) : Nat :=
  (text.bytes.takeWhile (fun b => b != 0)).length

/-! ## Binding structures -/

/-- The members of `enum_field_types` the adapter stores; a zeroed
`MYSQL_BIND` has type 0, which is `MYSQL_TYPE_DECIMAL`. -/
inductive enum_field_types where
  | MYSQL_TYPE_DECIMAL
  | MYSQL_TYPE_LONG
  | MYSQL_TYPE_FLOAT
  | MYSQL_TYPE_NULL
  | MYSQL_TYPE_BLOB
  | MYSQL_TYPE_STRING
  deriving DecidableEq, Repr

/-- The fields of the client library's `MYSQL_BIND` that the adapter writes. -/
structure MYSQL_BIND where
  length : Ptr
  buffer : Ptr
  buffer_length : Nat
  buffer_type : enum_field_types
  is_unsigned : Nat
  deriving DecidableEq, Repr

/-- The union `data` of `ParamBind`: an `int` or a `float` (its bit pattern). -/
inductive ParamData where
  | ival (num : Int)
  | fval (f : Nat)
  deriving DecidableEq, Repr

/-- Per-parameter storage `ParamBind`: inline value, owned blob and its capacity. -/
structure ParamBind where
  data : ParamData
  blob : Ptr
  length : Nat
  deriving DecidableEq, Repr

/-- A `MYSQL_BIND` after `memset(.., 0, ..)`. -/
def MYSQL_BIND.zero : MYSQL_BIND :=
  { length := .null, buffer := .null, buffer_length := 0,
    buffer_type := .MYSQL_TYPE_DECIMAL, is_unsigned := 0 }

/-- A `ParamBind` after `memset(.., 0, ..)`. -/
def ParamBind.zero : ParamBind :=
  { data := .ival 0, blob := .null, length := 0 }

/-! ## The native layer -/

/-- Column metadata handle `MYSQL_RES *`. -/
structure MYSQL_RES where
  id : Nat
  deriving DecidableEq, Repr

/-- One result set as the native layer will deliver it: the return value of each
call made while the statement is positioned on it. -/
structure NativeResult where
  /-- Return of `mysql_stmt_next_result` when advancing onto this result. -/
  next_rc : Int
  /-- Return of `mysql_stmt_field_count`. -/
  field_count : Nat
  /-- Return of `mysql_stmt_result_metadata` (`none` is NULL). -/
  metadata : Option MYSQL_RES
  /-- Return of `MyBoundResults::Initialize`. -/
  init_ok : Bool
  /-- Return of `mysql_stmt_store_result`. -/
  store_rc : Int
  deriving DecidableEq, Repr

/-- State of the connection and the compiled statement. -/
structure Native where
  /-- Value of `mysql_stmt_param_count`. -/
  param_count : Nat
  /-- The result the statement is positioned on. -/
  current : NativeResult
  /-- Results of the running command not read yet. -/
  pending : List NativeResult
  /-- Metadata handles released with `mysql_free_result`. -/
  freed : List MYSQL_RES
  deriving DecidableEq, Repr

/-- How the native layer answers one bind-and-execute round. -/
structure ExecReply where
  /-- Return of `mysql_stmt_bind_param`. -/
  bind_rc : Int
  /-- Return of `mysql_stmt_execute`. -/
  exec_rc : Int
  /-- The result the statement is positioned on after the execute call. -/
  result : NativeResult
  /-- The results pending on the connection after the execute call. -/
  more : List NativeResult
  deriving DecidableEq, Repr

def mysql_stmt_param_count (w : Native) : Nat := w.param_count

def mysql_more_results (w : Native) : Bool := !w.pending.isEmpty

/-- Advance to the next pending result; -1 when there is none. -/
def mysql_stmt_next_result (w : Native) : Int × Native :=
  match w.pending with
  | [] => (-1, w)
  | r :: rest => (r.next_rc, { w with current := r, pending := rest })

def mysql_stmt_field_count (w : Native) : Nat := w.current.field_count

def mysql_stmt_result_metadata (w : Native) : Option MYSQL_RES := w.current.metadata

def mysql_stmt_store_result (w : Native) : Int := w.current.store_rc

def mysql_free_result (res : MYSQL_RES) (w : Native) : Native :=
  { w with freed := res :: w.freed }

def mysql_stmt_bind_param (r : ExecReply) : Int := r.bind_rc

def mysql_stmt_execute (r : ExecReply) (w : Native) : Int × Native :=
  (r.exec_rc, { w with current := r.result, pending := r.more })

/-- The result manager `MyBoundResults` as the adapter constructs it. -/
structure MyBoundResults where
  stmt : Nat
  res : MYSQL_RES
  num_fields : Nat
  deriving DecidableEq, Repr

/-- Call `m_rs->Initialize()`: the collaborator's answer for the current result. -/
def MyBoundResults.Initialize (_rs : MyBoundResults) (w : Native) : Bool :=
  w.current.init_ok

/-- Call `m_rs->Update()`: touches only the collaborator's row buffers. -/
def MyBoundResults.Update (rs : MyBoundResults) : MyBoundResults := rs

/-! ## The adapter -/

/-- The data members of `MyStatement`; `this` is the address of the object. -/
structure MyStatement where
  this : Nat
  m_mysql : Nat
  m_pParent : Nat
  m_pStmt : Nat
  m_bind : List MYSQL_BIND
  m_pRes : Option MYSQL_RES
  m_pushinfo : List ParamBind
  m_Params : Nat
  m_rs : Option MyBoundResults
  m_Results : Bool
  deriving DecidableEq, Repr

/-- Assignment to the array element `l[i]` through `f`; nothing outside the array. -/
def arrUpdate {α : Type} (l : List α) (i : Nat) (f : α → α) : List α :=
  match l[i]? with
  | some a => l.set i (f a)
  | none => l

/-- The arrays of `MyStatement::AllocateBindBuffers` (lines 139-152): zeroed
`m_pushinfo` and `m_bind` of `m_Params` entries, or NULL (empty). -/
def AllocateBindBuffers (m_Params : Nat) : List ParamBind × List MYSQL_BIND :=
  if m_Params ≠ 0 then
    (List.replicate m_Params ParamBind.zero, List.replicate m_Params MYSQL_BIND.zero)
  else
    ([], [])

/-- The constructor `MyStatement::MyStatement(MyDatabase *db, MYSQL_STMT *stmt)`
(lines 35-48); `this` is where the object is built, `mysql` is `db->m_mysql`. -/
def MyStatement.ctor (this mysql db stmt : Nat) (w : Native) : MyStatement :=
  let m_Params := mysql_stmt_param_count w
  let bufs := AllocateBindBuffers m_Params
  { this := this, m_mysql := mysql, m_pParent := db, m_pStmt := stmt,
    m_bind := bufs.2, m_pRes := none, m_pushinfo := bufs.1, m_Params := m_Params,
    m_rs := none, m_Results := false }

/-- One iteration of the loop of the copy constructor (lines 69-104), on the
arrays of the object under construction. -/
def copyBindingAt (this : Nat) (other : MyStatement)
    (st : List MYSQL_BIND × List ParamBind × Heap) (i : Nat) :
    List MYSQL_BIND × List ParamBind × Heap :=
  match st.1[i]? with
  | none => st
  | some b =>
    match b.buffer_type with
    | .MYSQL_TYPE_LONG =>
      (st.1.set i { b with buffer := .ival this i }, st.2.1, st.2.2)
    | .MYSQL_TYPE_FLOAT =>
      (st.1.set i { b with buffer := .fval this i }, st.2.1, st.2.2)
    | .MYSQL_TYPE_STRING | .MYSQL_TYPE_BLOB =>
      let original_ptr := (other.m_pushinfo.getD i ParamBind.zero).blob
      let copied : List ParamBind × Heap :=
        if original_ptr ≠ .null then
          let length := (other.m_pushinfo.getD i ParamBind.zero).length
          let a := malloc length st.2.2
          let h := memcpy a.1 (a.2.read original_ptr length) a.2
          (arrUpdate st.2.1 i (fun p => { p with blob := a.1 }), h)
        else (st.2.1, st.2.2)
      (st.1.set i { b with length := .buffer_length this i }, copied.1, copied.2)
    | _ => st

/-- The copy constructor `MyStatement::MyStatement(MyStatement& other)` (lines
50-109). It assigns neither `m_pRes` nor `m_rs`; their indeterminate initial
contents are the arguments `uninit_pRes` and `uninit_rs`. -/
def MyStatement.copy_ctor (this : Nat) (other : MyStatement)
    (uninit_pRes : Option MYSQL_RES) (uninit_rs : Option MyBoundResults) (h : Heap) :
    MyStatement × Heap :=
  let m_Params := other.m_Params
  let bufs := AllocateBindBuffers m_Params
  let st : List MYSQL_BIND × List ParamBind × Heap :=
    if m_Params ≠ 0 then
      -- memcpy of both arrays, then the pointer fix-up loop
      (List.range m_Params).foldl (copyBindingAt this other)
        (other.m_bind.take m_Params ++ bufs.2.drop (other.m_bind.take m_Params).length,
         other.m_pushinfo.take m_Params ++ bufs.1.drop (other.m_pushinfo.take m_Params).length,
         h)
    else (bufs.2, bufs.1, h)
  ({ this := this, m_mysql := other.m_mysql, m_pParent := other.m_pParent,
     m_pStmt := other.m_pStmt, m_bind := st.1, m_pRes := uninit_pRes,
     m_pushinfo := st.2.1, m_Params := m_Params, m_rs := uninit_rs,
     m_Results := false }, st.2.2)

/-- The method `MyStatement::Clone` (lines 350-353): `new MyStatement(*this)`. -/
def MyStatement.Clone (s : MyStatement) (this : Nat)
    (uninit_pRes : Option MYSQL_RES) (uninit_rs : Option MyBoundResults) (h : Heap) :
    MyStatement × Heap :=
  MyStatement.copy_ctor this s uninit_pRes uninit_rs h

/-- The method `MyStatement::ClearResults` (lines 154-169). -/
def MyStatement.ClearResults (s : MyStatement) (w : Native) : MyStatement × Native :=
  let s1 := if s.m_rs.isSome then { s with m_rs := none } else s
  let sw : MyStatement × Native :=
    match s1.m_pRes with
    | some res => ({ s1 with m_pRes := none }, mysql_free_result res w)
    | none => (s1, w)
  ({ sw.1 with m_Results := false }, sw.2)

/-- The method `MyStatement::FetchMoreResults` (lines 171-228). -/
def MyStatement.FetchMoreResults (s : MyStatement) (w : Native) :
    Bool × MyStatement × Native :=
  if s.m_pRes = none then (false, s, w)
  else if !mysql_more_results w then (false, s, w)
  else
    let c := s.ClearResults w
    let n := mysql_stmt_next_result c.2
    if n.1 ≠ 0 then (false, c.1, n.2)
    else
      let num_fields := mysql_stmt_field_count n.2
      if num_fields = 0 then (false, c.1, n.2)
      else
        match mysql_stmt_result_metadata n.2 with
        | none => (false, { c.1 with m_pRes := none }, n.2)
        | some res =>
          let rs := c.1.m_rs.getD (MyBoundResults.mk c.1.m_pStmt res num_fields)
          let inited := rs.Initialize n.2
          if !inited then
            (false, { c.1 with m_pRes := some res, m_rs := some rs, m_Results := inited }, n.2)
          else
            let stored := decide (mysql_stmt_store_result n.2 = 0)
            (stored, { c.1 with m_pRes := some res, m_rs := some rs.Update,
                                m_Results := stored }, n.2)

/-- The loop `while (FetchMoreResults()) {}` (lines 113-116 and 358-361): the
state after the first call that returns false, `none` when `fuel` calls all
returned true. -/
def MyStatement.spin : Nat → MyStatement → Native → Option (MyStatement × Native)
  | 0, _, _ => none
  | fuel + 1, s, w =>
    match s.FetchMoreResults w with
    | (true, s1, w1) => MyStatement.spin fuel s1 w1
    | (false, s1, w1) => some (s1, w1)

/-- Lines 357-364 of `MyStatement::Execute`: the drain loop, then
`ClearResults`. Every true return of the loop takes one pending result, so
`pending.length + 1` calls are enough. -/
def MyStatement.Execute_drain (s : MyStatement) (w : Native) :
    Option (MyStatement × Native) :=
  match s.spin (w.pending.length + 1) w with
  | none => none
  | some (s1, w1) => some (s1.ClearResults w1)

/-- Lines 366-417 of `MyStatement::Execute`: bind, execute, collect the result. -/
def MyStatement.Execute_run (s : MyStatement) (r : ExecReply) (w : Native) :
    Bool × MyStatement × Native :=
  if s.m_Params ≠ 0 ∧ mysql_stmt_bind_param r ≠ 0 then (false, s, w)
  else
    let e := mysql_stmt_execute r w
    if e.1 ≠ 0 then (false, s, e.2)
    else
      let num_fields := mysql_stmt_field_count e.2
      if num_fields = 0 then (true, s, e.2)
      else
        match mysql_stmt_result_metadata e.2 with
        | none => (true, { s with m_pRes := none }, e.2)
        | some res =>
          let rs := MyBoundResults.mk s.m_pStmt res num_fields
          let inited := rs.Initialize e.2
          if !inited then
            (false, { s with m_pRes := some res, m_rs := some rs, m_Results := inited }, e.2)
          else
            let stored := decide (mysql_stmt_store_result e.2 = 0)
            (stored, { s with m_pRes := some res, m_rs := some rs.Update,
                              m_Results := stored }, e.2)

/-- The method `MyStatement::Execute` (lines 355-417); `r` is what the native
layer answers to this bind-and-execute round. -/
def MyStatement.Execute (s : MyStatement) (r : ExecReply) (w : Native) :
    Option (Bool × MyStatement × Native) :=
  match s.Execute_drain w with
  | none => none
  | some (s1, w1) => some (s1.Execute_run r w1)

/-- The method `MyStatement::GetResultSet` (lines 446-449). -/
def MyStatement.GetResultSet (s : MyStatement) : Option MyBoundResults :=
  if s.m_Results then s.m_rs else none

/-- The method `MyStatement::CopyBlob` (lines 230-254): the returned pointer,
the adapter and the heap. -/
def MyStatement.CopyBlob (s : MyStatement) (param : Nat) (blobptr : CallerMem)
    (length : Nat) (h : Heap) : Ptr × MyStatement × Heap :=
  let pi := s.m_pushinfo.getD param ParamBind.zero
  let kept : Ptr × Heap :=
    if pi.blob ≠ .null then
      if pi.length < length then (.null, free pi.blob h) else (pi.blob, h)
    else (.null, h)
  let got : Ptr × MyStatement × Heap :=
    if kept.1 = .null then
      let a := malloc length kept.2
      (a.1, { s with m_pushinfo :=
                arrUpdate s.m_pushinfo param (fun p => { p with blob := a.1, length := length }) },
       a.2)
    else (kept.1, s, kept.2)
  (got.1, got.2.1, memcpy got.1 (some (blobptr.read length)) got.2.2)

/-- The method `MyStatement::BindParamInt` (lines 256-270). -/
def MyStatement.BindParamInt (s : MyStatement) (param : Nat) (num : Int) (signd : Bool) :
    Bool × MyStatement :=
  if param ≥ s.m_Params then (false, s)
  else
    (true,
     { s with
       m_pushinfo := arrUpdate s.m_pushinfo param (fun p => { p with data := .ival num }),
       m_bind := arrUpdate s.m_bind param (fun b =>
         { b with buffer_type := .MYSQL_TYPE_LONG, buffer := .ival s.this param,
                  is_unsigned := if signd then 0 else 1, length := .null }) })

/-- The method `MyStatement::BindParamFloat` (lines 272-285). -/
def MyStatement.BindParamFloat (s : MyStatement) (param : Nat) (f : Nat) :
    Bool × MyStatement :=
  if param ≥ s.m_Params then (false, s)
  else
    (true,
     { s with
       m_pushinfo := arrUpdate s.m_pushinfo param (fun p => { p with data := .fval f }),
       m_bind := arrUpdate s.m_bind param (fun b =>
         { b with buffer_type := .MYSQL_TYPE_FLOAT, buffer := .fval s.this param,
                  length := .null }) })

/-- The method `MyStatement::BindParamString` (lines 287-312). -/
def MyStatement.BindParamString (s : MyStatement) (param : Nat) (text : CallerMem)
    (copy : Bool) (h : Heap) : Bool × MyStatement × Heap :=
  if param ≥ s.m_Params then (false, s, h)
  else
    let len := strlen text
    let c : Ptr × MyStatement × Heap :=
      if copy then s.CopyBlob param text (len + 1) h else (text.ptr, s, h)
    (true,
     { c.2.1 with
       m_bind := arrUpdate c.2.1.m_bind param (fun b =>
         { b with buffer_type := .MYSQL_TYPE_STRING, buffer := c.1, buffer_length := len,
                  length := .buffer_length s.this param }) },
     c.2.2)

/-- The method `MyStatement::BindParamBlob` (lines 314-336). -/
def MyStatement.BindParamBlob (s : MyStatement) (param : Nat) (data : CallerMem)
    (length : Nat) (copy : Bool) (h : Heap) : Bool × MyStatement × Heap :=
  if param ≥ s.m_Params then (false, s, h)
  else
    let c : Ptr × MyStatement × Heap :=
      if copy then s.CopyBlob param data length h else (data.ptr, s, h)
    (true,
     { c.2.1 with
       m_bind := arrUpdate c.2.1.m_bind param (fun b =>
         { b with buffer_type := .MYSQL_TYPE_BLOB, buffer := c.1, buffer_length := length,
                  length := .buffer_length s.this param }) },
     c.2.2)

/-- The method `MyStatement::BindParamNull` (lines 338-348). -/
def MyStatement.BindParamNull (s : MyStatement) (param : Nat) : Bool × MyStatement :=
  if param ≥ s.m_Params then (false, s)
  else
    (true,
     { s with
       m_bind := arrUpdate s.m_bind param (fun b => { b with buffer_type := .MYSQL_TYPE_NULL }) })

/-- The method `MyStatement::Destroy` (lines 134-137), `delete this`, which runs
the destructor `MyStatement::~MyStatement` (lines 111-132): drain, clear, free
every owned blob. -/
def MyStatement.Destroy (s : MyStatement) (h : Heap) (w : Native) : Option (Heap × Native) :=
  match s.spin (w.pending.length + 1) w with
  | none => none
  | some (s1, w1) =>
    let c := s1.ClearResults w1
    some ((c.1.m_pushinfo.take c.1.m_Params).foldl (fun hp p => free p.blob hp) h, c.2)

/-- The bytes a binding designates: `buffer_length` bytes at `buffer`. -/
def MYSQL_BIND.value (b : MYSQL_BIND) (h : Heap) : Option (List Byte) :=
  h.read b.buffer b.buffer_length

/-! ## Predicates used in the statements -/

/-- The result-set fields are consistent: a set `m_Results` flag needs a result
manager, and a result manager needs a metadata handle. -/
def MyStatement.ResultInv (s : MyStatement) : Prop :=
  (s.m_Results = true → s.m_rs ≠ none) ∧ (s.m_rs ≠ none → s.m_pRes ≠ none)

/-- Position `P` exists in both arrays and its owned buffer, when there is one,
is a live block of at least the recorded capacity. -/
def MyStatement.ownedOk (s : MyStatement) (h : Heap) (P : Nat) : Bool :=
  match s.m_pushinfo[P]?, s.m_bind[P]? with
  | some pb, some _ =>
    pb.blob == Ptr.null ||
      (match h.block pb.blob with
       | some bs => decide (pb.length ≤ bs.length)
       | none => false)
  | _, _ => false

/-- What a copy-bind of the `L` bytes at `src` to position `P` leaves behind,
from adapter `s` and heap `h` to adapter `s1` and heap `h1`; `blen` is the
bound `buffer_length`. -/
def CopyBound (s : MyStatement) (h : Heap) (P : Nat) (src : CallerMem) (L blen : Nat)
    (s1 : MyStatement) (h1 : Heap) : Prop :=
  let old := s.m_pushinfo.getD P ParamBind.zero
  let new := s1.m_pushinfo.getD P ParamBind.zero
  -- reuse: same buffer, same recorded capacity
  (old.blob ≠ .null → L ≤ old.length → new.blob = old.blob ∧ new.length = old.length) ∧
  -- otherwise: the old buffer (if any) is freed, a fresh one of exactly L bytes is recorded
  (old.blob = .null ∨ old.length < L →
    new.blob = .heap h.blocks.length ∧ new.length = L ∧ h.block new.blob = none ∧
    (∃ bs, h1.block new.blob = some bs ∧ bs.length = L) ∧
    (old.blob ≠ .null → h1.block old.blob = none)) ∧
  -- contents and binding
  new.blob ≠ .null ∧
  h1.read new.blob L = some (src.read L) ∧
  (s1.m_bind.getD P MYSQL_BIND.zero).buffer = new.blob ∧
  (s1.m_bind.getD P MYSQL_BIND.zero).buffer_length = blen ∧
  -- frame
  (∀ j, j ≠ P → s1.m_pushinfo[j]? = s.m_pushinfo[j]? ∧ s1.m_bind[j]? = s.m_bind[j]?) ∧
  (∀ q, q ≠ old.blob → q ≠ new.blob → h1.block q = h.block q) ∧
  h1.fault = h.fault

/-- States an adapter built by the primary constructor can get into, the heap
and the native layer being arbitrary at every call. -/
inductive Reachable : MyStatement → Prop where
  | ctor (this mysql db stmt : Nat) (w : Native) :
      Reachable (MyStatement.ctor this mysql db stmt w)
  | bindInt {s : MyStatement} (P : Nat) (num : Int) (signd : Bool) :
      Reachable s → Reachable (s.BindParamInt P num signd).2
  | bindFloat {s : MyStatement} (P f : Nat) :
      Reachable s → Reachable (s.BindParamFloat P f).2
  | bindString {s : MyStatement} (P : Nat) (text : CallerMem) (copy : Bool) (h : Heap) :
      Reachable s → Reachable (s.BindParamString P text copy h).2.1
  | bindBlob {s : MyStatement} (P : Nat) (data : CallerMem) (length : Nat) (copy : Bool)
      (h : Heap) : Reachable s → Reachable (s.BindParamBlob P data length copy h).2.1
  | bindNull {s : MyStatement} (P : Nat) :
      Reachable s → Reachable (s.BindParamNull P).2
  | execute {s : MyStatement} (r : ExecReply) (w : Native) (res : Bool × MyStatement × Native) :
      Reachable s → s.Execute r w = some res → Reachable res.2.1
  | fetch {s : MyStatement} (w : Native) :
      Reachable s → Reachable (s.FetchMoreResults w).2.1
  | clear {s : MyStatement} (w : Native) :
      Reachable s → Reachable (s.ClearResults w).1

/-! ## Concrete states for the worked examples -/

/-- A result set with two columns on which every native step succeeds. -/
def ex_good : NativeResult := ⟨0, 2, some ⟨7⟩, true, 0⟩

/-- A native layer with `n` parameters and the given pending results. -/
def ex_native (n : Nat) (pending : List NativeResult) : Native :=
  ⟨n, ⟨0, 0, none, false, 0⟩, pending, []⟩

/-- The empty heap. -/
def ex_heap : Heap := ⟨[], false⟩

/-- A freshly constructed adapter with `n` parameters. -/
def ex_stmt (n : Nat) : MyStatement := MyStatement.ctor 100 1 2 3 (ex_native n [])

/-- The caller string "ab". -/
def ex_ab : CallerMem := ⟨50, [97, 98, 0]⟩

/-- The caller string "cd". -/
def ex_cd : CallerMem := ⟨60, [99, 100, 0]⟩

/-- The adapter and native layer after a parameterless statement executed with
one good result set and nothing else pending. -/
def ex_executed : MyStatement × Native :=
  ((ex_stmt 0).Execute_run ⟨0, 0, ex_good, []⟩ (ex_native 0 [])).2

/-- The original adapter after `BindParamString(0, "ab", true)`, with its heap. -/
def ex_bound : MyStatement × Heap := ((ex_stmt 1).BindParamString 0 ex_ab true ex_heap).2

/-- The clone of `ex_bound`, with the heap after cloning. -/
def ex_clone : MyStatement × Heap := ex_bound.1.Clone 200 none none ex_bound.2

/-- The original after it then rebinds "cd" with `copy = true`, with the heap. -/
def ex_rebound : MyStatement × Heap := (ex_bound.1.BindParamString 0 ex_cd true ex_clone.2).2

/-- The original of `ex_bound` after `BindParamInt(0, 5, true)`. -/
def ex_bound_int : MyStatement := (ex_bound.1.BindParamInt 0 5 true).2

/-- The clone of `ex_bound_int`, with the heap after cloning. -/
def ex_clone_int : MyStatement × Heap := ex_bound_int.Clone 200 none none ex_bound.2

/-! ## Statements about out-of-range binds -/

/-- C1: a bind at a position at or past the declared parameter count returns
false and leaves adapter and heap exactly as they were, for each of the five
bind functions and every value and copy flag. -/
theorem BindParam_out_of_range (s : MyStatement) (h : Heap) (P : Nat) (num : Int)
    (signd : Bool) (f : Nat) (text data : CallerMem) (length : Nat) (copy : Bool)
    (hP : s.m_Params ≤ P) :
    s.BindParamInt P num signd = (false, s) ∧
    s.BindParamFloat P f = (false, s) ∧
    s.BindParamString P text copy h = (false, s, h) ∧
    s.BindParamBlob P data length copy h = (false, s, h) ∧
    s.BindParamNull P = (false, s) := by
  simp [MyStatement.BindParamInt, MyStatement.BindParamFloat, MyStatement.BindParamString,
    MyStatement.BindParamBlob, MyStatement.BindParamNull, hP]

/-- Witness for C1: position 2 on an adapter with two declared parameters. -/
theorem BindParam_out_of_range_witness :
    (MyStatement.ctor 1 1 1 1 ⟨2, ⟨0, 0, none, false, 0⟩, [], []⟩).m_Params ≤ 2 ∧
    (MyStatement.ctor 1 1 1 1 ⟨2, ⟨0, 0, none, false, 0⟩, [], []⟩).BindParamInt 2 7 true =
      (false, MyStatement.ctor 1 1 1 1 ⟨2, ⟨0, 0, none, false, 0⟩, [], []⟩) :=
  ⟨by decide, (BindParam_out_of_range _ ⟨[], false⟩ 2 7 true 0 ⟨0, []⟩ ⟨0, []⟩ 0 true
    (by decide)).1⟩

/-! ## The result-set operations -/

theorem ClearResults_native (s : MyStatement) (w : Native) :
    (s.ClearResults w).2.pending = w.pending ∧ (s.ClearResults w).2.current = w.current := by
  unfold MyStatement.ClearResults
  cases h : (if s.m_rs.isSome then { s with m_rs := none } else s).m_pRes <;>
    simp [h, mysql_free_result]

theorem ClearResults_fields (s : MyStatement) (w : Native) :
    (s.ClearResults w).1 = { s with m_rs := none, m_pRes := none, m_Results := false } := by
  unfold MyStatement.ClearResults
  cases hr : s.m_rs <;> cases hp : s.m_pRes <;> simp [hr, hp]

theorem FetchMoreResults_true_pending (s s1 : MyStatement) (w w1 : Native)
    (h : s.FetchMoreResults w = (true, s1, w1)) :
    w1.pending.length + 1 = w.pending.length := by
  unfold MyStatement.FetchMoreResults at h
  have hc := ClearResults_native s w
  cases hp : w.pending with
  | nil => simp [mysql_more_results, hp] at h
  | cons p rest =>
    simp only [mysql_stmt_next_result, hc.1, hp] at h
    split_ifs at h <;> try simp at h
    split at h <;> try simp at h
    split_ifs at h <;> simp at h
    all_goals (obtain ⟨-, -, rfl⟩ := h; simp)

theorem FetchMoreResults_m_Params (s : MyStatement) (w : Native) :
    (s.FetchMoreResults w).2.1.m_Params = s.m_Params := by
  unfold MyStatement.FetchMoreResults
  simp only [ClearResults_fields]
  split_ifs <;> try rfl
  split <;> try rfl
  split_ifs <;> rfl

theorem spin_terminates (fuel : Nat) : ∀ (s : MyStatement) (w : Native),
    w.pending.length < fuel → ∃ s1 w1, s.spin fuel w = some (s1, w1) := by
  induction fuel with
  | zero => intro s w h; omega
  | succ n ih =>
    intro s w h
    unfold MyStatement.spin
    rcases hf : s.FetchMoreResults w with ⟨b, s1, w1⟩
    cases b with
    | false => exact ⟨s1, w1, rfl⟩
    | true =>
      have := FetchMoreResults_true_pending s s1 w w1 hf
      exact ih s1 w1 (by omega)

theorem spin_last_call (fuel : Nat) : ∀ (s s1 : MyStatement) (w w1 : Native),
    s.spin fuel w = some (s1, w1) →
    ∃ (sk : MyStatement) (wk : Native),
      sk.FetchMoreResults wk = (false, s1, w1) ∧ sk.m_Params = s.m_Params := by
  induction fuel with
  | zero => intro s s1 w w1 h; simp [MyStatement.spin] at h
  | succ n ih =>
    intro s s1 w w1 h
    unfold MyStatement.spin at h
    rcases hf : s.FetchMoreResults w with ⟨b, s2, w2⟩
    rw [hf] at h
    cases b with
    | false =>
      simp at h
      obtain ⟨rfl, rfl⟩ := h
      exact ⟨s, w, hf, rfl⟩
    | true =>
      simp at h
      obtain ⟨sk, wk, hk, hp⟩ := ih s2 s1 w2 w1 h
      refine ⟨sk, wk, hk, ?_⟩
      have := FetchMoreResults_m_Params s w
      rw [hf] at this
      simpa [hp] using this

theorem Execute_drain_spec (s : MyStatement) (w : Native) :
    ∃ s1 w1, s.Execute_drain w = some (s1, w1) ∧ s1.m_Params = s.m_Params ∧
      s1.m_rs = none ∧ s1.m_pRes = none ∧ s1.m_Results = false := by
  obtain ⟨s1, w1, h⟩ := spin_terminates (w.pending.length + 1) s w (by omega)
  obtain ⟨sk, wk, hk, hp⟩ := spin_last_call _ _ _ _ _ h
  have hm := FetchMoreResults_m_Params sk wk
  rw [hk] at hm
  refine ⟨(s1.ClearResults w1).1, (s1.ClearResults w1).2, ?_, ?_⟩
  · simp [MyStatement.Execute_drain, h]
  · simp [ClearResults_fields]
    simp at hm
    omega

/-- C6: when bind (if made) and execute succeed, the column count is nonzero,
metadata and result initialisation succeed and the store step fails, Execute
returns false and GetResultSet then returns none. -/
theorem Execute_store_failure (s : MyStatement) (r : ExecReply) (w : Native) (res : MYSQL_RES)
    (hbind : s.m_Params ≠ 0 → r.bind_rc = 0) (hexec : r.exec_rc = 0)
    (hcols : r.result.field_count ≠ 0) (hmeta : r.result.metadata = some res)
    (hinit : r.result.init_ok = true) (hstore : r.result.store_rc ≠ 0) :
    ∃ s1 w1, s.Execute r w = some (false, s1, w1) ∧ s1.GetResultSet = none := by
  obtain ⟨s0, w0, hd, hp, -, -, -⟩ := Execute_drain_spec s w
  have hb : ¬ (s0.m_Params ≠ 0 ∧ r.bind_rc ≠ 0) := by
    rw [hp]; intro ⟨h1, h2⟩; exact h2 (hbind h1)
  simp [MyStatement.Execute, hd, MyStatement.Execute_run, mysql_stmt_bind_param,
    mysql_stmt_execute, mysql_stmt_field_count, mysql_stmt_result_metadata,
    mysql_stmt_store_result, MyBoundResults.Initialize, MyStatement.GetResultSet,
    hb, hexec, hcols, hmeta, hinit, hstore]

/-- C7: when bind (if made) and execute succeed and the column count is zero,
Execute returns true and GetResultSet then returns none, whatever result set
the adapter exposed before. -/
theorem Execute_no_columns (s : MyStatement) (r : ExecReply) (w : Native)
    (hbind : s.m_Params ≠ 0 → r.bind_rc = 0) (hexec : r.exec_rc = 0)
    (hcols : r.result.field_count = 0) :
    ∃ s1 w1, s.Execute r w = some (true, s1, w1) ∧ s1.GetResultSet = none := by
  obtain ⟨s0, w0, hd, hp, -, -, hres⟩ := Execute_drain_spec s w
  have hb : ¬ (s0.m_Params ≠ 0 ∧ r.bind_rc ≠ 0) := by
    rw [hp]; intro ⟨h1, h2⟩; exact h2 (hbind h1)
  simp [MyStatement.Execute, hd, MyStatement.Execute_run, mysql_stmt_bind_param,
    mysql_stmt_execute, mysql_stmt_field_count, MyStatement.GetResultSet,
    hb, hexec, hcols, hres]

/-- Witness for C6: a parameterless adapter whose single result fails to store. -/
theorem Execute_store_failure_witness :
    ∃ s1 w1, (ex_stmt 0).Execute ⟨0, 0, ⟨0, 2, some ⟨7⟩, true, 1⟩, []⟩ (ex_native 0 []) =
      some (false, s1, w1) ∧ s1.GetResultSet = none :=
  Execute_store_failure (ex_stmt 0) ⟨0, 0, ⟨0, 2, some ⟨7⟩, true, 1⟩, []⟩ (ex_native 0 []) ⟨7⟩
    (by decide) (by decide) (by decide) (by decide) (by decide) (by decide)

/-- Witness for C7: an adapter that still exposes a buffered result set executes
a statement without columns. -/
theorem Execute_no_columns_witness :
    ex_executed.1.GetResultSet ≠ none ∧
    ∃ s1 w1, ex_executed.1.Execute ⟨0, 0, ⟨0, 0, none, false, 0⟩, []⟩ ex_executed.2 =
      some (true, s1, w1) ∧ s1.GetResultSet = none :=
  ⟨by decide,
   Execute_no_columns ex_executed.1 ⟨0, 0, ⟨0, 0, none, false, 0⟩, []⟩ ex_executed.2
    (by decide) (by decide) (by decide)⟩

/-- C4 as stated fails: bind and execute succeed, the column count is 2 and the
metadata fetch returns no handle, yet Execute returns true. -/
theorem Execute_metadata_failure_returns_true :
    (ex_stmt 1).Execute ⟨0, 0, ⟨0, 2, none, true, 0⟩, []⟩ (ex_native 1 []) =
      some (true, ex_stmt 1, ⟨1, ⟨0, 2, none, true, 0⟩, [], []⟩) := by
  decide

/-- C4 amended: Execute always returns, and it returns false when the bind call
is made and fails, when the execute call fails, and, for a result with columns
and metadata, when result initialisation fails or the store step fails. When
the column count is nonzero and the metadata fetch returns no handle it returns
true with no result set: GetResultSet returns none, and m_rs and m_pRes are
null. -/
theorem Execute_native_failures (s : MyStatement) (r : ExecReply) (w : Native) :
    ∃ b s1 w1, s.Execute r w = some (b, s1, w1) ∧
      (s.m_Params ≠ 0 → r.bind_rc ≠ 0 → b = false) ∧
      ((s.m_Params ≠ 0 → r.bind_rc = 0) → r.exec_rc ≠ 0 → b = false) ∧
      ((s.m_Params ≠ 0 → r.bind_rc = 0) → r.exec_rc = 0 → r.result.field_count ≠ 0 →
        r.result.metadata ≠ none → r.result.init_ok = false → b = false) ∧
      ((s.m_Params ≠ 0 → r.bind_rc = 0) → r.exec_rc = 0 → r.result.field_count ≠ 0 →
        r.result.metadata ≠ none → r.result.init_ok = true → r.result.store_rc ≠ 0 →
        b = false) ∧
      ((s.m_Params ≠ 0 → r.bind_rc = 0) → r.exec_rc = 0 → r.result.field_count ≠ 0 →
        r.result.metadata = none →
        b = true ∧ s1.GetResultSet = none ∧ s1.m_rs = none ∧ s1.m_pRes = none ∧
          s1.m_Results = false) := by
  obtain ⟨s0, w0, hd, hp, hrs, hpr, hre⟩ := Execute_drain_spec s w
  refine ⟨(s0.Execute_run r w0).1, (s0.Execute_run r w0).2.1, (s0.Execute_run r w0).2.2,
    by simp [MyStatement.Execute, hd], ?_, ?_, ?_, ?_, ?_⟩
  · intro h1 h2
    simp [MyStatement.Execute_run, mysql_stmt_bind_param, hp, h1, h2]
  · intro h1 h2
    have hb : ¬ (s0.m_Params ≠ 0 ∧ r.bind_rc ≠ 0) := by
      rw [hp]; intro ⟨a, b⟩; exact b (h1 a)
    simp [MyStatement.Execute_run, mysql_stmt_bind_param, mysql_stmt_execute, hb, h2]
  · intro h1 h2 h3 h4 h5
    have hb : ¬ (s0.m_Params ≠ 0 ∧ r.bind_rc ≠ 0) := by
      rw [hp]; intro ⟨a, b⟩; exact b (h1 a)
    obtain ⟨res, hres⟩ := Option.ne_none_iff_exists'.mp h4
    simp [MyStatement.Execute_run, mysql_stmt_bind_param, mysql_stmt_execute,
      mysql_stmt_field_count, mysql_stmt_result_metadata, MyBoundResults.Initialize,
      hb, h2, h3, hres, h5]
  · intro h1 h2 h3 h4 h5 h6
    have hb : ¬ (s0.m_Params ≠ 0 ∧ r.bind_rc ≠ 0) := by
      rw [hp]; intro ⟨a, b⟩; exact b (h1 a)
    obtain ⟨res, hres⟩ := Option.ne_none_iff_exists'.mp h4
    simp [MyStatement.Execute_run, mysql_stmt_bind_param, mysql_stmt_execute,
      mysql_stmt_field_count, mysql_stmt_result_metadata, MyBoundResults.Initialize,
      mysql_stmt_store_result, hb, h2, h3, hres, h5, h6]
  · intro h1 h2 h3 h4
    have hb : ¬ (s0.m_Params ≠ 0 ∧ r.bind_rc ≠ 0) := by
      rw [hp]; intro ⟨a, b⟩; exact b (h1 a)
    simp [MyStatement.Execute_run, mysql_stmt_bind_param, mysql_stmt_execute,
      mysql_stmt_field_count, mysql_stmt_result_metadata, MyStatement.GetResultSet,
      hb, h2, h3, h4, hrs, hpr, hre]

/-- Witness for C4 amended: on a one-parameter adapter a failing bind call gives
false, and a result with two columns and no metadata gives true with no result
set. -/
theorem Execute_native_failures_witness :
    (∃ s1 w1, (ex_stmt 1).Execute ⟨1, 0, ex_good, []⟩ (ex_native 1 []) =
      some (false, s1, w1)) ∧
    (∃ s1 w1, (ex_stmt 1).Execute ⟨0, 0, ⟨0, 2, none, true, 0⟩, []⟩ (ex_native 1 []) =
      some (true, s1, w1) ∧ s1.GetResultSet = none ∧ s1.m_rs = none ∧ s1.m_pRes = none) := by
  constructor
  · obtain ⟨b, s1, w1, h, hbind, -⟩ :=
      Execute_native_failures (ex_stmt 1) ⟨1, 0, ex_good, []⟩ (ex_native 1 [])
    have hb : b = false := hbind (by decide) (by decide)
    exact ⟨s1, w1, hb ▸ h⟩
  · obtain ⟨b, s1, w1, h, -, -, -, -, hmeta⟩ :=
      Execute_native_failures (ex_stmt 1) ⟨0, 0, ⟨0, 2, none, true, 0⟩, []⟩ (ex_native 1 [])
    obtain ⟨hb, h1, h2, h3, -⟩ := hmeta (by decide) (by decide) (by decide) (by decide)
    exact ⟨s1, w1, hb ▸ h, h1, h2, h3⟩

theorem FetchMoreResults_false_state (s s1 : MyStatement) (w w1 : Native)
    (h : s.FetchMoreResults w = (false, s1, w1)) :
    ((s.m_pRes = none ∨ mysql_more_results w = false) ∧ s1 = s ∧ w1 = w) ∨
    (s1.m_Results = false ∧ s1.GetResultSet = none ∧
      ((s1.m_rs = none ∧ s1.m_pRes = none) ∨
       (s1.m_rs ≠ none ∧ s1.m_pRes ≠ none ∧
        (w1.current.init_ok = false ∨ w1.current.store_rc ≠ 0)))) := by
  unfold MyStatement.FetchMoreResults at h
  simp only [ClearResults_fields] at h
  by_cases h1 : s.m_pRes = none
  · simp [h1] at h
    exact Or.inl ⟨Or.inl h1, h.1.symm, h.2.symm⟩
  by_cases h2 : mysql_more_results w = false
  · simp [h1, h2] at h
    exact Or.inl ⟨Or.inr h2, h.1.symm, h.2.symm⟩
  rw [if_neg h1, if_neg (by simpa using h2)] at h
  right
  split_ifs at h
  · simp at h
    obtain ⟨rfl, rfl⟩ := h
    simp [MyStatement.GetResultSet]
  · simp at h
    obtain ⟨rfl, rfl⟩ := h
    simp [MyStatement.GetResultSet]
  · split at h
    · simp at h
      obtain ⟨rfl, rfl⟩ := h
      simp [MyStatement.GetResultSet]
    · split_ifs at h
      · simp at h
        obtain ⟨rfl, rfl⟩ := h
        simp_all [MyStatement.GetResultSet, MyBoundResults.Initialize]
      · simp at h
        obtain ⟨hst, rfl, rfl⟩ := h
        simp_all [MyStatement.GetResultSet, MyBoundResults.Initialize, mysql_stmt_store_result]

/-- C8 as stated fails: after an execution that buffered its only result set,
FetchMoreResults returns false because nothing is pending and leaves the
result manager, the metadata handle and the exposed result set in place. -/
theorem FetchMoreResults_false_keeps_result :
    (ex_stmt 0).Execute ⟨0, 0, ex_good, []⟩ (ex_native 0 []) =
      some (true, ex_executed.1, ex_executed.2) ∧
    ex_executed.2.pending = [] ∧
    ex_executed.1.FetchMoreResults ex_executed.2 = (false, ex_executed.1, ex_executed.2) ∧
    ex_executed.1.m_rs = some ⟨3, ⟨7⟩, 2⟩ ∧
    ex_executed.1.m_pRes = some ⟨7⟩ ∧
    ex_executed.1.GetResultSet = some ⟨3, ⟨7⟩, 2⟩ := by
  decide

/-- C8 amended: with n results pending, repeated FetchMoreResults returns false
within n + 1 calls, and a true return takes exactly one pending result. A call
that returns false either returned at once and left adapter and native layer
as they were (no metadata handle, or nothing pending), or left GetResultSet
returning none; then m_rs and m_pRes are both null, unless initialisation or
the store step failed, in which case both are set. -/
theorem FetchMoreResults_repeated (s : MyStatement) (w : Native) :
    (∃ (s1 : MyStatement) (w1 : Native) (sk : MyStatement) (wk : Native),
      s.spin (w.pending.length + 1) w = some (s1, w1) ∧
      sk.FetchMoreResults wk = (false, s1, w1)) ∧
    (∀ (s1 : MyStatement) (w1 : Native), s.FetchMoreResults w = (true, s1, w1) →
      w1.pending.length + 1 = w.pending.length) ∧
    (∀ (s1 : MyStatement) (w1 : Native), s.FetchMoreResults w = (false, s1, w1) →
      ((s.m_pRes = none ∨ mysql_more_results w = false) ∧ s1 = s ∧ w1 = w) ∨
      (s1.m_Results = false ∧ s1.GetResultSet = none ∧
        ((s1.m_rs = none ∧ s1.m_pRes = none) ∨
         (s1.m_rs ≠ none ∧ s1.m_pRes ≠ none ∧
          (w1.current.init_ok = false ∨ w1.current.store_rc ≠ 0))))) := by
  refine ⟨?_, fun s1 w1 h => FetchMoreResults_true_pending s s1 w w1 h,
    fun s1 w1 h => FetchMoreResults_false_state s s1 w w1 h⟩
  obtain ⟨s1, w1, h⟩ := spin_terminates (w.pending.length + 1) s w (by omega)
  obtain ⟨sk, wk, hk, -⟩ := spin_last_call _ _ _ _ _ h
  exact ⟨s1, w1, sk, wk, h, hk⟩

/-- Witness for C8 amended: an adapter holding a result, one good result and one
without columns pending; the second call returns false with nothing left. -/
theorem FetchMoreResults_repeated_witness :
    (∃ (s1 : MyStatement) (w1 : Native) (sk : MyStatement) (wk : Native),
      ex_executed.1.spin 3 (ex_native 0 [ex_good, ⟨0, 0, none, false, 0⟩]) = some (s1, w1) ∧
      sk.FetchMoreResults wk = (false, s1, w1)) ∧
    (ex_executed.1.spin 3 (ex_native 0 [ex_good, ⟨0, 0, none, false, 0⟩])).map
      (fun x => (x.1.m_rs, x.1.m_pRes, x.1.GetResultSet, x.2.pending)) =
      some (none, none, none, []) :=
  ⟨(FetchMoreResults_repeated ex_executed.1 (ex_native 0 [ex_good, ⟨0, 0, none, false, 0⟩])).1,
   by decide⟩

/-! ## The result-set invariant -/

theorem ctor_ResultInv (this mysql db stmt : Nat) (w : Native) :
    (MyStatement.ctor this mysql db stmt w).ResultInv := by
  simp [MyStatement.ctor, MyStatement.ResultInv]

theorem ClearResults_ResultInv (s : MyStatement) (w : Native) :
    (s.ClearResults w).1.ResultInv := by
  simp [ClearResults_fields, MyStatement.ResultInv]

theorem FetchMoreResults_ResultInv (s : MyStatement) (w : Native) (h : s.ResultInv) :
    (s.FetchMoreResults w).2.1.ResultInv := by
  rcases hf : s.FetchMoreResults w with ⟨b, s1, w1⟩
  cases b with
  | false =>
    rcases FetchMoreResults_false_state s s1 w w1 hf with ⟨-, rfl, -⟩ | ⟨h1, -, h2 | h2⟩
    · exact h
    · exact ⟨by simp [h1], by simp [h2.1]⟩
    · exact ⟨by simp [h1], fun _ => h2.2.1⟩
  | true =>
    unfold MyStatement.FetchMoreResults at hf
    simp only [ClearResults_fields] at hf
    split_ifs at hf <;> try simp at hf
    split at hf <;> try simp at hf
    split_ifs at hf <;> simp at hf
    obtain ⟨-, rfl, -⟩ := hf
    simp [MyStatement.ResultInv]

theorem Execute_run_ResultInv (s : MyStatement) (r : ExecReply) (w : Native)
    (h1 : s.m_rs = none) (h2 : s.m_Results = false) :
    (s.Execute_run r w).2.1.ResultInv := by
  by_cases hb : s.m_Params ≠ 0 ∧ r.bind_rc ≠ 0
  · simp [MyStatement.Execute_run, mysql_stmt_bind_param, hb, MyStatement.ResultInv, h1, h2]
  by_cases he : r.exec_rc = 0
  swap
  · simp [MyStatement.Execute_run, mysql_stmt_bind_param, mysql_stmt_execute, hb, he,
      MyStatement.ResultInv, h1, h2]
  by_cases hc : r.result.field_count = 0
  · simp [MyStatement.Execute_run, mysql_stmt_bind_param, mysql_stmt_execute,
      mysql_stmt_field_count, hb, he, hc, MyStatement.ResultInv, h1, h2]
  cases hm : r.result.metadata with
  | none =>
    simp [MyStatement.Execute_run, mysql_stmt_bind_param, mysql_stmt_execute,
      mysql_stmt_field_count, mysql_stmt_result_metadata, hb, he, hc, hm,
      MyStatement.ResultInv, h1, h2]
  | some res =>
    cases hi : r.result.init_ok <;>
      simp [MyStatement.Execute_run, mysql_stmt_bind_param, mysql_stmt_execute,
        mysql_stmt_field_count, mysql_stmt_result_metadata, MyBoundResults.Initialize,
        hb, he, hc, hm, hi, MyStatement.ResultInv, h1, h2]

theorem Execute_ResultInv (s : MyStatement) (r : ExecReply) (w : Native)
    (res : Bool × MyStatement × Native) (h : s.Execute r w = some res) :
    res.2.1.ResultInv := by
  obtain ⟨s0, w0, hd, -, h1, -, h2⟩ := Execute_drain_spec s w
  simp [MyStatement.Execute, hd] at h
  subst h
  exact Execute_run_ResultInv s0 r w0 h1 h2

theorem CopyBlob_result_fields (s : MyStatement) (P : Nat) (src : CallerMem) (L : Nat)
    (h : Heap) :
    (s.CopyBlob P src L h).2.1.m_rs = s.m_rs ∧ (s.CopyBlob P src L h).2.1.m_pRes = s.m_pRes ∧
    (s.CopyBlob P src L h).2.1.m_Results = s.m_Results := by
  unfold MyStatement.CopyBlob
  simp only
  split_ifs <;> simp

theorem ResultInv_of_fields (s s1 : MyStatement) (h1 : s1.m_rs = s.m_rs)
    (h2 : s1.m_pRes = s.m_pRes) (h3 : s1.m_Results = s.m_Results) (h : s.ResultInv) :
    s1.ResultInv := by
  simpa [MyStatement.ResultInv, h1, h2, h3] using h

theorem BindParamInt_result_fields (s : MyStatement) (P : Nat) (num : Int) (signd : Bool) :
    (s.BindParamInt P num signd).2.m_rs = s.m_rs ∧
    (s.BindParamInt P num signd).2.m_pRes = s.m_pRes ∧
    (s.BindParamInt P num signd).2.m_Results = s.m_Results := by
  unfold MyStatement.BindParamInt
  by_cases hP : P ≥ s.m_Params <;> simp [hP]

theorem BindParamFloat_result_fields (s : MyStatement) (P f : Nat) :
    (s.BindParamFloat P f).2.m_rs = s.m_rs ∧
    (s.BindParamFloat P f).2.m_pRes = s.m_pRes ∧
    (s.BindParamFloat P f).2.m_Results = s.m_Results := by
  unfold MyStatement.BindParamFloat
  by_cases hP : P ≥ s.m_Params <;> simp [hP]

theorem BindParamNull_result_fields (s : MyStatement) (P : Nat) :
    (s.BindParamNull P).2.m_rs = s.m_rs ∧
    (s.BindParamNull P).2.m_pRes = s.m_pRes ∧
    (s.BindParamNull P).2.m_Results = s.m_Results := by
  unfold MyStatement.BindParamNull
  by_cases hP : P ≥ s.m_Params <;> simp [hP]

theorem BindParamString_result_fields (s : MyStatement) (P : Nat) (text : CallerMem)
    (copy : Bool) (h : Heap) :
    (s.BindParamString P text copy h).2.1.m_rs = s.m_rs ∧
    (s.BindParamString P text copy h).2.1.m_pRes = s.m_pRes ∧
    (s.BindParamString P text copy h).2.1.m_Results = s.m_Results := by
  have hc := CopyBlob_result_fields s P text (strlen text + 1) h
  unfold MyStatement.BindParamString
  by_cases hP : P ≥ s.m_Params
  · simp [hP]
  · cases copy <;> simp [hP, hc]

theorem BindParamBlob_result_fields (s : MyStatement) (P : Nat) (data : CallerMem)
    (length : Nat) (copy : Bool) (h : Heap) :
    (s.BindParamBlob P data length copy h).2.1.m_rs = s.m_rs ∧
    (s.BindParamBlob P data length copy h).2.1.m_pRes = s.m_pRes ∧
    (s.BindParamBlob P data length copy h).2.1.m_Results = s.m_Results := by
  have hc := CopyBlob_result_fields s P data length h
  unfold MyStatement.BindParamBlob
  by_cases hP : P ≥ s.m_Params
  · simp [hP]
  · cases copy <;> simp [hP, hc]

/-- Every state an adapter built by the primary constructor can reach keeps the
result-set fields consistent, and there GetResultSet is non-null exactly when
m_Results is set. -/
theorem Reachable_ResultInv (s : MyStatement) (h : Reachable s) :
    s.ResultInv ∧ (s.GetResultSet ≠ none ↔ s.m_Results = true) := by
  have inv : s.ResultInv := by
    induction h with
    | ctor this mysql db stmt w => exact ctor_ResultInv this mysql db stmt w
    | @bindInt s0 P num signd _ ih =>
      have hf := BindParamInt_result_fields s0 P num signd
      exact ResultInv_of_fields _ _ hf.1 hf.2.1 hf.2.2 ih
    | @bindFloat s0 P f _ ih =>
      have hf := BindParamFloat_result_fields s0 P f
      exact ResultInv_of_fields _ _ hf.1 hf.2.1 hf.2.2 ih
    | @bindString s0 P text copy hp _ ih =>
      have hf := BindParamString_result_fields s0 P text copy hp
      exact ResultInv_of_fields _ _ hf.1 hf.2.1 hf.2.2 ih
    | @bindBlob s0 P data length copy hp _ ih =>
      have hf := BindParamBlob_result_fields s0 P data length copy hp
      exact ResultInv_of_fields _ _ hf.1 hf.2.1 hf.2.2 ih
    | @bindNull s0 P _ ih =>
      have hf := BindParamNull_result_fields s0 P
      exact ResultInv_of_fields _ _ hf.1 hf.2.1 hf.2.2 ih
    | execute r w res _ he _ => exact Execute_ResultInv _ r w res he
    | fetch w _ ih => exact FetchMoreResults_ResultInv _ w ih
    | clear w _ _ => exact ClearResults_ResultInv _ w
  refine ⟨inv, ?_⟩
  unfold MyStatement.GetResultSet
  constructor
  · intro hg
    by_contra hr
    simp [hr] at hg
  · intro hr
    simpa [hr] using inv.1 hr

/-- The copy constructor passes the contents of its storage through to m_pRes
and m_rs and sets m_Results to false. -/
theorem Clone_result_fields (s : MyStatement) (this : Nat) (uninit_pRes : Option MYSQL_RES)
    (uninit_rs : Option MyBoundResults) (h : Heap) :
    (s.Clone this uninit_pRes uninit_rs h).1.m_pRes = uninit_pRes ∧
    (s.Clone this uninit_pRes uninit_rs h).1.m_rs = uninit_rs ∧
    (s.Clone this uninit_pRes uninit_rs h).1.m_Results = false := by
  simp [MyStatement.Clone, MyStatement.copy_ctor]

/-- C10, the defect: the copy constructor assigns neither m_rs nor m_pRes, so a
clone holds whatever its storage held. With a non-null m_rs and a null m_pRes
the invariant is broken, and with a non-null m_pRes FetchMoreResults on the
fresh clone goes on to the native layer and can even return true. -/
theorem Clone_result_fields_unset :
    ((ex_stmt 0).Clone 200 none (some ⟨3, ⟨7⟩, 2⟩) ex_heap).1.m_rs = some ⟨3, ⟨7⟩, 2⟩ ∧
    ((ex_stmt 0).Clone 200 none (some ⟨3, ⟨7⟩, 2⟩) ex_heap).1.m_pRes = none ∧
    ¬ ((ex_stmt 0).Clone 200 none (some ⟨3, ⟨7⟩, 2⟩) ex_heap).1.ResultInv ∧
    (((ex_stmt 0).Clone 200 (some ⟨9⟩) none ex_heap).1.FetchMoreResults
      (ex_native 0 [ex_good])).1 = true := by
  refine ⟨by decide, by decide, ?_, by decide⟩
  intro h
  exact absurd (h.2 (by decide)) (by decide)

/-! ## Clone and the owned buffers -/

/-- C2, the defect: after a copy-bind of "ab" and Clone, the binding of the
clone still points at the buffer the original owns; the private copy the clone
made is recorded in its m_pushinfo only. Rebinding "cd" on the original reuses
that buffer in place, and the value the binding of the clone designates turns
from "ab" into "cd". -/
theorem Clone_binding_aliases_original :
    (ex_bound.1.m_pushinfo.getD 0 ParamBind.zero).blob = Ptr.heap 0 ∧
    (ex_clone.1.m_pushinfo.getD 0 ParamBind.zero).blob = Ptr.heap 1 ∧
    (ex_clone.1.m_bind.getD 0 MYSQL_BIND.zero).buffer = Ptr.heap 0 ∧
    (ex_clone.1.m_bind.getD 0 MYSQL_BIND.zero).value ex_clone.2 = some [97, 98] ∧
    (ex_rebound.1.m_pushinfo.getD 0 ParamBind.zero).blob = Ptr.heap 0 ∧
    (ex_clone.1.m_bind.getD 0 MYSQL_BIND.zero).value ex_rebound.2 = some [99, 100] := by
  decide

/-- C3, the defect: a position copy-bound as string and then rebound as integer
keeps its owned buffer, but the copy constructor duplicates owned buffers only
under the string and blob tags. The clone records the very buffer the original
owns, nothing is allocated, and destroying both adapters frees it twice. -/
theorem Clone_shares_buffer_after_rebind :
    (ex_bound_int.m_bind.getD 0 MYSQL_BIND.zero).buffer_type =
      enum_field_types.MYSQL_TYPE_LONG ∧
    (ex_bound_int.m_pushinfo.getD 0 ParamBind.zero).blob = Ptr.heap 0 ∧
    (ex_clone_int.1.m_pushinfo.getD 0 ParamBind.zero).blob = Ptr.heap 0 ∧
    ex_clone_int.2 = ex_bound.2 ∧
    ex_bound.2.fault = false ∧
    ((ex_bound_int.Destroy ex_clone_int.2 (ex_native 1 [])).bind
      (fun hw => ex_clone_int.1.Destroy hw.1 hw.2)).map (fun hw => hw.1.fault) = some true := by
  decide

/-! ## Copy-binds -/

theorem CallerMem.read_length (m : CallerMem) (n : Nat) : (m.read n).length = n := by
  simp [CallerMem.read]

theorem arrUpdate_of_getElem? {α : Type} (l : List α) (i : Nat) (a : α) (f : α → α)
    (h : l[i]? = some a) : arrUpdate l i f = l.set i (f a) := by
  simp [arrUpdate, h]

theorem getElem?_lt_of_some {α : Type} (l : List α) (i : Nat) (a : α) (h : l[i]? = some a) :
    i < l.length := by
  by_contra hn
  rw [List.getElem?_eq_none (by omega)] at h
  exact absurd h (by simp)

theorem block_heap_some (h : Heap) (p : Ptr) (bs : List Byte) (hb : h.block p = some bs) :
    ∃ b, p = .heap b ∧ h.blocks[b]? = some (some bs) := by
  cases p with
  | heap b =>
    refine ⟨b, rfl, ?_⟩
    simp only [Heap.block, List.getD] at hb
    cases hg : h.blocks[b]? with
    | none => simp [hg] at hb
    | some x => simp [hg] at hb; simp [hb]
  | _ => simp [Heap.block] at hb

/-- Result of CopyBlob when the position owns no buffer yet. -/
theorem CopyBlob_fresh (s : MyStatement) (h : Heap) (P : Nat) (src : CallerMem) (L : Nat)
    (pb : ParamBind) (hpb : s.m_pushinfo[P]? = some pb) (hnull : pb.blob = .null) :
    s.CopyBlob P src L h =
      (.heap h.blocks.length,
       { s with m_pushinfo := s.m_pushinfo.set P { pb with blob := .heap h.blocks.length,
                                                            length := L } },
       { h with blocks := h.blocks ++ [some (src.read L)] }) := by
  simp [MyStatement.CopyBlob, hpb, hnull, malloc, memcpy,
    arrUpdate_of_getElem? _ _ _ _ hpb, List.getD, CallerMem.read_length]

/-- Result of CopyBlob when the owned buffer is too small. -/
theorem CopyBlob_grow (s : MyStatement) (h : Heap) (P : Nat) (src : CallerMem) (L : Nat)
    (pb : ParamBind) (b : Nat) (bs : List Byte) (hpb : s.m_pushinfo[P]? = some pb)
    (hblob : pb.blob = .heap b) (hlive : h.blocks[b]? = some (some bs)) (hlt : pb.length < L) :
    s.CopyBlob P src L h =
      (.heap h.blocks.length,
       { s with m_pushinfo := s.m_pushinfo.set P { pb with blob := .heap h.blocks.length,
                                                            length := L } },
       { h with blocks := h.blocks.set b none ++ [some (src.read L)] }) := by
  simp [MyStatement.CopyBlob, hpb, hblob, hlt, free, malloc, memcpy,
    arrUpdate_of_getElem? _ _ _ _ hpb, List.getD, hlive, CallerMem.read_length]

/-- Result of CopyBlob when the owned buffer is large enough. -/
theorem CopyBlob_reuse (s : MyStatement) (h : Heap) (P : Nat) (src : CallerMem) (L : Nat)
    (pb : ParamBind) (b : Nat) (bs : List Byte) (hpb : s.m_pushinfo[P]? = some pb)
    (hblob : pb.blob = .heap b) (hlive : h.blocks[b]? = some (some bs))
    (hcap : pb.length ≤ bs.length) (hle : L ≤ pb.length) :
    s.CopyBlob P src L h =
      (.heap b, s, { h with blocks := h.blocks.set b (some (src.read L ++ bs.drop L)) }) := by
  have h1 : ¬ pb.length < L := by omega
  have h2 : L ≤ bs.length := by omega
  simp [MyStatement.CopyBlob, hpb, hblob, h1, memcpy,
    List.getD, hlive, CallerMem.read_length, h2]

theorem ownedOk_cases (s : MyStatement) (h : Heap) (P : Nat) (hok : s.ownedOk h P = true) :
    ∃ pb bd, s.m_pushinfo[P]? = some pb ∧ s.m_bind[P]? = some bd ∧
      (pb.blob = .null ∨
        ∃ b bs, pb.blob = .heap b ∧ h.blocks[b]? = some (some bs) ∧ pb.length ≤ bs.length) := by
  unfold MyStatement.ownedOk at hok
  cases hpb : s.m_pushinfo[P]? with
  | none => simp [hpb] at hok
  | some pb =>
    cases hbd : s.m_bind[P]? with
    | none => simp [hpb, hbd] at hok
    | some bd =>
      refine ⟨pb, bd, rfl, rfl, ?_⟩
      simp only [hpb, hbd, Bool.or_eq_true, beq_iff_eq] at hok
      rcases hok with h0 | h1
      · exact Or.inl h0
      · right
        cases hbl : h.block pb.blob with
        | none => simp [hbl] at h1
        | some bs =>
          obtain ⟨b, hb, hlive⟩ := block_heap_some h pb.blob bs hbl
          simp [hbl] at h1
          exact ⟨b, bs, hb, hlive, h1⟩

theorem getD_append_ne {α : Type} (l : List (Option α)) (x : Option α) (b : Nat)
    (hb : b ≠ l.length) : (l ++ [x])[b]?.getD none = l[b]?.getD none := by
  rcases Nat.lt_or_gt_of_ne hb with hlt | hgt
  · rw [List.getElem?_append_left hlt]
  · rw [List.getElem?_eq_none (by simp; omega), List.getElem?_eq_none (by omega)]

theorem heap_frame_append (blocks : List (Option (List Byte))) (x : Option (List Byte))
    (q : Ptr) (hq : q ≠ .heap blocks.length) (fl fl1 : Bool) :
    (Heap.mk (blocks ++ [x]) fl).block q = (Heap.mk blocks fl1).block q := by
  cases q with
  | heap b =>
    have hb : b ≠ blocks.length := fun e => hq (by rw [e])
    simp [Heap.block, List.getD, getD_append_ne _ _ _ hb]
  | _ => simp [Heap.block]

theorem heap_frame_set (blocks : List (Option (List Byte))) (x : Option (List Byte))
    (b : Nat) (q : Ptr) (hq : q ≠ .heap b) (fl fl1 : Bool) :
    (Heap.mk (blocks.set b x) fl).block q = (Heap.mk blocks fl1).block q := by
  cases q with
  | heap c =>
    have hb : b ≠ c := fun e => hq (by rw [e])
    simp [Heap.block, List.getD, List.getElem?_set_ne hb]
  | _ => simp [Heap.block]

theorem CopyBound_of_CopyBlob (s : MyStatement) (h : Heap) (P : Nat) (src : CallerMem)
    (L blen : Nat) (ty : enum_field_types) (lenp : Ptr) (hok : s.ownedOk h P = true) :
    CopyBound s h P src L blen
      { (s.CopyBlob P src L h).2.1 with
        m_bind := arrUpdate (s.CopyBlob P src L h).2.1.m_bind P (fun b =>
          { b with buffer_type := ty, buffer := (s.CopyBlob P src L h).1,
                   buffer_length := blen, length := lenp }) }
      (s.CopyBlob P src L h).2.2 := by
  obtain ⟨pb, bd, hpb, hbd, hown⟩ := ownedOk_cases s h P hok
  have hP1 := getElem?_lt_of_some _ _ _ hpb
  have hP2 := getElem?_lt_of_some _ _ _ hbd
  rcases hown with hnull | ⟨b, bs, hblob, hlive, hcap⟩
  · rw [CopyBlob_fresh s h P src L pb hpb hnull]
    unfold CopyBound
    simp [hpb, hbd, hnull, arrUpdate, List.getD, Heap.block, Heap.read, hP1, hP2,
      CallerMem.read_length]
    refine ⟨?_, ?_⟩
    · intro j hj
      exact ⟨List.getElem?_set_ne (Ne.symm hj), List.getElem?_set_ne (Ne.symm hj)⟩
    · intro q _ hq
      have := heap_frame_append h.blocks (some (src.read L)) q hq h.fault h.fault
      simpa [Heap.block, List.getD] using this
  · have hb : b < h.blocks.length := getElem?_lt_of_some _ _ _ hlive
    by_cases hlt : pb.length < L
    · rw [CopyBlob_grow s h P src L pb b bs hpb hblob hlive hlt]
      unfold CopyBound
      simp [hpb, hbd, hblob, arrUpdate, List.getD, Heap.block, Heap.read, hP1, hP2,
        CallerMem.read_length, hlt, hlive, hb, Nat.ne_of_gt hb, Nat.not_le_of_lt hlt]
      refine ⟨?_, ?_, ?_⟩
      · rw [List.getElem?_append_left (by simpa using hb)]
        simp [hb]
      · intro j hj
        exact ⟨List.getElem?_set_ne (Ne.symm hj), List.getElem?_set_ne (Ne.symm hj)⟩
      · intro q hq1 hq2
        have e1 := heap_frame_append (h.blocks.set b none) (some (src.read L)) q
          (by simpa using hq2) h.fault h.fault
        have e2 := heap_frame_set h.blocks none b q hq1 h.fault h.fault
        simpa [Heap.block, List.getD] using e1.trans e2
    · have hle : L ≤ pb.length := by omega
      rw [CopyBlob_reuse s h P src L pb b bs hpb hblob hlive hcap hle]
      unfold CopyBound
      simp [hpb, hbd, hblob, arrUpdate, List.getD, Heap.block, Heap.read, hP1, hP2,
        CallerMem.read_length, hlt, hlive, hb, hle]
      refine ⟨?_, ?_⟩
      · intro j hj
        exact List.getElem?_set_ne (Ne.symm hj)
      · intro q hq
        have e := heap_frame_set h.blocks (some (src.read L ++ List.drop L bs)) b q hq
          h.fault h.fault
        simpa [Heap.block, List.getD] using e

theorem read_takeWhile (l : List Byte) :
    (List.range ((l.takeWhile (fun b => b != 0)).length + 1)).map (fun i => l.getD i 0) =
      l.takeWhile (fun b => b != 0) ++ [0] := by
  induction l with
  | nil => simp
  | cons x xs ih =>
    by_cases hx : x = 0
    · subst hx
      simp [List.range_succ]
    · have hx1 : (x != 0) = true := by simpa using hx
      have ht : List.takeWhile (fun b => b != 0) (x :: xs) =
          x :: List.takeWhile (fun b => b != 0) xs := by
        simp [List.takeWhile_cons, hx1]
      rw [ht, List.length_cons, List.range_succ_eq_map]
      simp only [List.map_cons, List.map_map, List.cons_append]
      have hf : ((fun i => (x :: xs).getD i 0) ∘ Nat.succ) = fun i => xs.getD i 0 := by
        funext i; simp
      rw [hf, ih]
      simp

/-- C9: a copy-bind at an in-range position whose owned buffer is well formed
keeps the buffer and its recorded capacity when one exists with capacity at
least L, and otherwise frees it (if any) and records a fresh buffer of exactly
L bytes; either way the first L bytes of the owned buffer are the data, the
binding points at the owned buffer, and every other position and every other
heap block is as before. BindParamBlob copies length bytes and binds
buffer_length = length; BindParamString copies strlen(text) + 1 bytes, the
text and its terminator, and binds buffer_length = strlen(text). -/
theorem copy_bind_reuse_or_reallocate (s : MyStatement) (h : Heap) (P : Nat)
    (data text : CallerMem) (L : Nat) (hP : P < s.m_Params) (hok : s.ownedOk h P = true) :
    (s.BindParamBlob P data L true h).1 = true ∧
    CopyBound s h P data L L
      (s.BindParamBlob P data L true h).2.1 (s.BindParamBlob P data L true h).2.2 ∧
    (s.BindParamString P text true h).1 = true ∧
    CopyBound s h P text (strlen text + 1) (strlen text)
      (s.BindParamString P text true h).2.1 (s.BindParamString P text true h).2.2 ∧
    text.read (strlen text + 1) = text.bytes.takeWhile (fun b => b != 0) ++ [0] := by
  have hP1 : ¬ P ≥ s.m_Params := by omega
  refine ⟨?_, ?_, ?_, ?_, ?_⟩
  · simp [MyStatement.BindParamBlob, hP1]
  · have := CopyBound_of_CopyBlob s h P data L L .MYSQL_TYPE_BLOB (.buffer_length s.this P) hok
    simpa [MyStatement.BindParamBlob, hP1] using this
  · simp [MyStatement.BindParamString, hP1]
  · have := CopyBound_of_CopyBlob s h P text (strlen text + 1) (strlen text) .MYSQL_TYPE_STRING
      (.buffer_length s.this P) hok
    simpa [MyStatement.BindParamString, hP1] using this
  · exact read_takeWhile text.bytes

/-- Witness for C9: position 0 owns a three-byte buffer holding "ab"; binding
"cd" fits and reuses it. -/
theorem copy_bind_reuse_or_reallocate_witness :
    0 < ex_bound.1.m_Params ∧ ex_bound.1.ownedOk ex_bound.2 0 = true ∧
    CopyBound ex_bound.1 ex_bound.2 0 ex_cd (strlen ex_cd + 1) (strlen ex_cd)
      (ex_bound.1.BindParamString 0 ex_cd true ex_bound.2).2.1
      (ex_bound.1.BindParamString 0 ex_cd true ex_bound.2).2.2 ∧
    (ex_bound.1.BindParamString 0 ex_cd true ex_bound.2).2.2.blocks = [some [99, 100, 0]] :=
  ⟨by decide, by decide,
   (copy_bind_reuse_or_reallocate ex_bound.1 ex_bound.2 0 ex_cd ex_cd 3 (by decide)
      (by decide)).2.2.2.1,
   by decide⟩

/-- The primary constructor leaves every declared position well formed: both
arrays have the entry and no buffer is owned yet. -/
theorem ctor_ownedOk (this mysql db stmt : Nat) (w : Native) (h : Heap) (P : Nat)
    (hP : P < (MyStatement.ctor this mysql db stmt w).m_Params) :
    (MyStatement.ctor this mysql db stmt w).ownedOk h P = true := by
  have hn : mysql_stmt_param_count w ≠ 0 := by
    simp only [MyStatement.ctor] at hP
    omega
  have hP1 : P < mysql_stmt_param_count w := by simpa [MyStatement.ctor] using hP
  simp [MyStatement.ctor, MyStatement.ownedOk, AllocateBindBuffers, hn, hP1, ParamBind.zero,
    List.getElem?_replicate]

/-- A freshly constructed adapter has no result set: GetResultSet returns none
and FetchMoreResults returns false at once, leaving everything as it was. -/
theorem ctor_no_result (this mysql db stmt : Nat) (w w1 : Native) :
    (MyStatement.ctor this mysql db stmt w).GetResultSet = none ∧
    (MyStatement.ctor this mysql db stmt w).FetchMoreResults w1 =
      (false, MyStatement.ctor this mysql db stmt w, w1) := by
  simp [MyStatement.ctor, MyStatement.GetResultSet, MyStatement.FetchMoreResults]
